import Mathlib

/-!
Verification of the `install-sync` synchronization core against its
natural-language specification.

The definitions below are a shallow embedding of the Python sources:

* `src/install_sync/git_manager.py` — `GitManager.commit_changes`,
  `GitManager.push_changes` (error classification, divergence recovery,
  verify-by-fetch), modelled as pure functions over an environment that
  records the outcome of each underlying git call;
* `src/install_sync/models.py` — `MachineProfile`, `PackageInfo`,
  `GitConfig`, `Config` and the `md5`-based profile-id derivation
  (the md5 implementation follows RFC 1321, matching Python `hashlib.md5`);
* `src/install_sync/config_utils.py` and `src/install_sync/main.py` —
  configuration loading/saving, the JSON document format, and the
  document-mutating command flows (`install`, `track`, `uninstall`,
  `upgrade`, `list`).
-/

namespace InstallSync

/-! ## String utilities

Python `kw in msg` (substring containment) and `str.lower()`. -/

/-- Test whether `needle` occurs at the head of `haystack`. -/
def seqLead (needle haystack : List Char) : Bool :=
  match needle, haystack with
  | [], _ => true
  | _ :: _, [] => false
  | a :: as, b :: bs => a == b && seqLead as bs

/-- Test whether `needle` occurs contiguously anywhere in `haystack`. -/
def seqContains (needle haystack : List Char) : Bool :=
  match haystack with
  | [] => needle.isEmpty
  | _ :: rest => seqLead needle haystack || seqContains needle rest

/-- Python substring test `kw in msg`, as containment of character lists. -/
def strContains (msg kw : String) : Bool :=
  seqContains kw.toList msg.toList

/-- ASCII lowering of one character, the fragment of Python `str.lower()`
exercised by git error messages. -/
def lowerChar (c : Char) : Char :=
  if 65 ≤ c.toNat ∧ c.toNat ≤ 90 then Char.ofNat (c.toNat + 32) else c

/-- Python `str.lower()` restricted to ASCII. -/
def strLower (s : String) : String :=
  String.mk (s.toList.map lowerChar)

/-! ## `models.GitConfig` (`src/install_sync/models.py`, lines 49-54) -/

/-- Git configuration settings, `models.GitConfig`. -/
structure GitConfig where
  auto_commit : Bool := true
  auto_push : Bool := true
  commit_message_template : String := "Install \x7bpackage\x7d on \x7bmachine\x7d"
  deriving DecidableEq, Repr

/-! ## `GitManager.push_changes` (`src/install_sync/git_manager.py`, lines 97-274)

The underlying git calls (`origin.push`, `pull_changes`, `origin.fetch`,
ref lookups) are modelled by a `PushEnv` environment recording what each
call would do; `push_changes` then mirrors the Python control flow and
returns both the observable outcome and how many times each git operation
ran. -/

/-- Outcome of one `origin.push(branch_name)` call: a (possibly empty)
`push_info` result with its `ERROR` / `REJECTED` flag bits, or a raised
`GitCommandError` carrying an error message. -/
inductive PushAttempt where
  | flags (error rejected : Bool)
  | empty
  | raises (msg : String)
  deriving DecidableEq, Repr

/-- Environment for one `push_changes` invocation: what each underlying
git call would do if executed. -/
structure PushEnv where
  firstPush : PushAttempt
  /-- whether `pull_changes` completes without raising -/
  pullOk : Bool
  retryPush : PushAttempt
  /-- whether `origin.fetch()` in the verification step completes -/
  fetchOk : Bool
  /-- `self.repo.head.commit.hexsha` -/
  localTip : String
  /-- commit hash of `refs[remote/branch]`, `none` when the ref lookup raises -/
  remoteTip : Option String
  deriving DecidableEq, Repr

/-- Message of the `GitCommandError` raised at line 143 when the push
result carries the `ERROR` flag (rendering of
`GitCommandError("git push", "Push failed")`). -/
def flagErrorMsg : String := "git push failed due to: push failed"

/-- Message of the `GitCommandError` raised at line 150 when the push
result carries the `REJECTED` flag (rendering of
`GitCommandError("git push", "Push rejected")`). -/
def flagRejectedMsg : String := "git push failed due to: push rejected"

/-- Lines 135-157: the initial push either succeeds or enters the
`except GitCommandError` handler with this message. An `ERROR` flag is
checked before the `REJECTED` flag. -/
def firstPushError : PushAttempt → Option String
  | .raises msg => some msg
  | .flags true _ => some flagErrorMsg
  | .flags false true => some flagRejectedMsg
  | .flags false false => none
  | .empty => none

/-- Keywords of the divergence branch, line 165-169: tested on `str(e).lower()`. -/
def divergenceKeywords : List String := ["fetch first", "non-fast-forward", "rejected"]

/-- Keywords of the authentication branch, lines 208-213. -/
def authKeywords : List String := ["403", "denied", "authentication failed", "unauthorized"]

/-- Line 165-169 condition on `error_msg = str(e).lower()`. -/
def isDivergenceError (e : String) : Bool :=
  divergenceKeywords.any (fun kw => strContains (strLower e) kw)

/-- Lines 208-213 condition on `error_msg = str(e).lower()`. -/
def isAuthError (e : String) : Bool :=
  authKeywords.any (fun kw => strContains (strLower e) kw)

/-- Observable outcome of `push_changes`, one constructor per distinct
console report / control-flow exit of lines 97-274. -/
inductive PushState where
  /-- line 101-102: `auto_push` disabled, immediate return -/
  | skipped
  | pushed
  /-- lines 195-199: push succeeded after pull and retry -/
  | pushedAfterRetry
  /-- lines 188-193: the retried push still has `ERROR` or `REJECTED` flags -/
  | divergedUnresolved
  /-- lines 201-205: `pull_changes` or the retried push raised -/
  | syncAndRetryFailed
  /-- lines 214-237: authentication branch, original error re-raised -/
  | authFailed (orig : String)
  /-- lines 251-255: tips match, push actually succeeded -/
  | verifiedAfterAmbiguous
  /-- lines 259-264: tips differ or remote ref missing, warning with original error -/
  | warnedUnverified (orig : String)
  /-- lines 266-274: the verification fetch itself failed -/
  | warnedVerifyFailed (orig : String)
  deriving DecidableEq, Repr

/-- Result of one `push_changes` invocation: final state, how many times
each git operation ran, and whether an exception propagates to the caller. -/
structure PushReport where
  state : PushState
  /-- number of `origin.push` calls (initial push plus retry) -/
  pushes : Nat
  /-- number of `pull_changes` calls -/
  pulls : Nat
  /-- number of verification `origin.fetch` calls -/
  verifyFetches : Nat
  /-- the exception that propagates out of `push_changes`, if any -/
  raised : Option String
  deriving DecidableEq, Repr

/-- Shallow embedding of `GitManager.push_changes`
(`src/install_sync/git_manager.py`, lines 97-274). -/
def push_changes (config : GitConfig) (env : PushEnv) : PushReport :=
  if !config.auto_push then
    { state := .skipped, pushes := 0, pulls := 0, verifyFetches := 0, raised := none }
  else
    match firstPushError env.firstPush with
    | none =>
        { state := .pushed, pushes := 1, pulls := 0, verifyFetches := 0, raised := none }
    | some e =>
        if isDivergenceError e then
          -- lines 170-205: pull, then retry the push once; all failures are
          -- reported on the console and swallowed (no re-raise)
          if env.pullOk then
            match env.retryPush with
            | .raises _ =>
                { state := .syncAndRetryFailed, pushes := 2, pulls := 1,
                  verifyFetches := 0, raised := none }
            | .flags er rj =>
                if er || rj then
                  { state := .divergedUnresolved, pushes := 2, pulls := 1,
                    verifyFetches := 0, raised := none }
                else
                  { state := .pushedAfterRetry, pushes := 2, pulls := 1,
                    verifyFetches := 0, raised := none }
            | .empty =>
                { state := .pushedAfterRetry, pushes := 2, pulls := 1,
                  verifyFetches := 0, raised := none }
          else
            { state := .syncAndRetryFailed, pushes := 1, pulls := 1,
              verifyFetches := 0, raised := none }
        else if isAuthError e then
          -- lines 207-237: print guidance, re-raise the original error
          { state := .authFailed e, pushes := 1, pulls := 0,
            verifyFetches := 0, raised := some e }
        else
          -- lines 238-274: verify whether the push actually succeeded
          if env.fetchOk then
            match env.remoteTip with
            | some t =>
                if env.localTip == t then
                  { state := .verifiedAfterAmbiguous, pushes := 1, pulls := 0,
                    verifyFetches := 1, raised := none }
                else
                  { state := .warnedUnverified e, pushes := 1, pulls := 0,
                    verifyFetches := 1, raised := none }
            | none =>
                { state := .warnedUnverified e, pushes := 1, pulls := 0,
                  verifyFetches := 1, raised := none }
          else
            { state := .warnedVerifyFailed e, pushes := 1, pulls := 0,
              verifyFetches := 1, raised := none }

/-! ## `GitManager.commit_changes` (`src/install_sync/git_manager.py`, lines 78-95) -/

/-- Local repository state relevant to `commit_changes`. -/
structure WorkTree where
  /-- tracked-file changes (index or working tree differ from `HEAD`) -/
  modified : Bool
  /-- untracked files present -/
  untracked : Bool
  /-- commit messages, most recent first -/
  history : List String
  deriving DecidableEq, Repr

/-- Effect of `self.repo.git.add(A=True)`: untracked files become staged
changes, so afterwards `repo.is_dirty()` holds iff anything differed from
`HEAD`, and `repo.untracked_files` is empty. -/
def addAll (wt : WorkTree) : WorkTree :=
  { wt with modified := wt.modified || wt.untracked, untracked := false }

/-- Console outcome of `commit_changes`. -/
inductive CommitOutcome where
  | skipped
  | committed (message : String)
  /-- line 92: `No changes to commit` -/
  | clean
  deriving DecidableEq, Repr

/-- Shallow embedding of `GitManager.commit_changes`
(`src/install_sync/git_manager.py`, lines 78-95): stage everything, commit
only when something is dirty or untracked. -/
def commit_changes (config : GitConfig) (message : String) (wt : WorkTree) :
    WorkTree × CommitOutcome :=
  if !config.auto_commit then
    (wt, .skipped)
  else
    let staged := addAll wt
    if staged.modified || staged.untracked then
      ({ staged with modified := false, history := message :: staged.history },
       .committed message)
    else
      (staged, .clean)

/-- The `commit_changes(...)` followed by `push_changes()` sequence used by
the command flows in `src/install_sync/main.py` (for example lines 385-386). -/
def commit_and_push (config : GitConfig) (message : String) (wt : WorkTree)
    (env : PushEnv) : WorkTree × CommitOutcome × PushReport :=
  let step := commit_changes config message wt
  (step.1, step.2, push_changes config env)

/-! ## Timestamps

`PackageInfo.installed_at` is a Python `datetime`. The persisted document
stores `str(datetime)` (via `json.dump(..., default=str)`), i.e.
`YYYY-MM-DD HH:MM:SS` with a `.ffffff` suffix when the microsecond field is
non-zero; pydantic parses that string back into an equal `datetime`. -/

/-- Decimal digit character for `n < 10`. -/
def digitChar (n : Nat) : Char := Char.ofNat (48 + n)

/-- Two-digit zero-padded decimal rendering (`%02d`) for `n < 100`. -/
def pad2 (n : Nat) : List Char := [digitChar ((n / 10) % 10), digitChar (n % 10)]

/-- Four-digit zero-padded decimal rendering (`%04d`) for `n < 10000`. -/
def pad4 (n : Nat) : List Char :=
  [digitChar ((n / 1000) % 10), digitChar ((n / 100) % 10),
   digitChar ((n / 10) % 10), digitChar (n % 10)]

/-- Six-digit zero-padded decimal rendering (`%06d`) for `n < 1000000`. -/
def pad6 (n : Nat) : List Char :=
  [digitChar ((n / 100000) % 10), digitChar ((n / 10000) % 10),
   digitChar ((n / 1000) % 10), digitChar ((n / 100) % 10),
   digitChar ((n / 10) % 10), digitChar (n % 10)]

/-- Value of a decimal digit character. -/
def parseDigit (c : Char) : Option Nat :=
  if 48 ≤ c.toNat ∧ c.toNat ≤ 57 then some (c.toNat - 48) else none

/-- Consume exactly two decimal digits. -/
def parse2 : List Char → Option (Nat × List Char)
  | a :: b :: rest => do
      let x ← parseDigit a
      let y ← parseDigit b
      pure (10 * x + y, rest)
  | _ => none

/-- Consume exactly four decimal digits. -/
def parse4 : List Char → Option (Nat × List Char)
  | a :: b :: c :: d :: rest => do
      let x ← parseDigit a
      let y ← parseDigit b
      let z ← parseDigit c
      let w ← parseDigit d
      pure (1000 * x + 100 * y + 10 * z + w, rest)
  | _ => none

/-- Consume exactly six decimal digits. -/
def parse6 : List Char → Option (Nat × List Char)
  | a :: b :: c :: d :: e :: f :: rest => do
      let x ← parseDigit a
      let y ← parseDigit b
      let z ← parseDigit c
      let w ← parseDigit d
      let v ← parseDigit e
      let u ← parseDigit f
      pure (100000 * x + 10000 * y + 1000 * z + 100 * w + 10 * v + u, rest)
  | _ => none

/-- Consume one expected literal character. -/
def expectChar (c : Char) : List Char → Option (List Char)
  | [] => none
  | x :: rest => if x == c then some rest else none

/-- Python `datetime` value (naive, as produced by `datetime.now()`). -/
structure DateTime where
  year : Nat
  month : Nat
  day : Nat
  hour : Nat
  minute : Nat
  second : Nat
  microsecond : Nat
  deriving DecidableEq, Repr

/-- Field bounds under which the decimal renderings do not overflow their
fixed widths (real `datetime` values satisfy tighter bounds). -/
def DateTime.WF (d : DateTime) : Prop :=
  d.year < 10000 ∧ d.month < 100 ∧ d.day < 100 ∧ d.hour < 100 ∧
    d.minute < 100 ∧ d.second < 100 ∧ d.microsecond < 1000000

instance (d : DateTime) : Decidable d.WF := by
  unfold DateTime.WF; exact inferInstance

/-- Python `str(datetime)`: `YYYY-MM-DD HH:MM:SS[.ffffff]`, the fractional
part present exactly when the microsecond field is non-zero. -/
def renderDateTime (d : DateTime) : List Char :=
  pad4 d.year ++ '-' :: (pad2 d.month ++ '-' :: (pad2 d.day ++ ' ' ::
    (pad2 d.hour ++ ':' :: (pad2 d.minute ++ ':' :: (pad2 d.second ++
      (if d.microsecond = 0 then [] else '.' :: pad6 d.microsecond))))))

/-- Pydantic datetime validation, restricted to the `str(datetime)` shapes
emitted by `renderDateTime`. -/
def parseDateTime (cs : List Char) : Option DateTime :=
  match parse4 cs with
  | none => none
  | some (y, r1) =>
  match expectChar '-' r1 with
  | none => none
  | some r2 =>
  match parse2 r2 with
  | none => none
  | some (mo, r3) =>
  match expectChar '-' r3 with
  | none => none
  | some r4 =>
  match parse2 r4 with
  | none => none
  | some (da, r5) =>
  match expectChar ' ' r5 with
  | none => none
  | some r6 =>
  match parse2 r6 with
  | none => none
  | some (h, r7) =>
  match expectChar ':' r7 with
  | none => none
  | some r8 =>
  match parse2 r8 with
  | none => none
  | some (mi, r9) =>
  match expectChar ':' r9 with
  | none => none
  | some r10 =>
  match parse2 r10 with
  | none => none
  | some (s, r11) =>
  match r11 with
  | [] => some ⟨y, mo, da, h, mi, s, 0⟩
  | '.' :: r12 =>
    (match parse6 r12 with
     | none => none
     | some (us, r13) =>
        if r13.isEmpty then some ⟨y, mo, da, h, mi, s, us⟩ else none)
  | _ => none

/-! ## Tracking document data model (`src/install_sync/models.py`)

Python `dict`s preserve insertion order and are embedded as association
lists; `json.dump` / `json.load` preserve that order, as does pydantic. -/

/-- Machine profile information, `models.MachineProfile` (lines 11-35). -/
structure MachineProfile where
  profile_id : String
  machine_name : String
  os_type : String
  architecture : String
  deriving DecidableEq, Repr

/-- Information about an installed package, `models.PackageInfo`
(lines 38-46). `installed_at` defaults to `datetime.now()` at construction
time; it is a required field of every persisted record. -/
structure PackageInfo where
  name : String
  package_manager : String
  installed_at : DateTime
  version : Option String
  deriving DecidableEq, Repr

/-- Main configuration model, `models.Config` (lines 57-77): the
TrackingDocument. -/
structure Config where
  machines : List (String × MachineProfile) := []
  packages : List (String × List PackageInfo) := []
  git : GitConfig := {}
  deriving DecidableEq, Repr

/-! ## Persisted JSON document (`save_config` / `load_config`,
`src/install_sync/main.py` lines 288-309) -/

/-- JSON values (numbers do not occur in the persisted documents). -/
inductive Json where
  | null
  | bool (b : Bool)
  | str (s : String)
  | arr (elems : List Json)
  | obj (fields : List (String × Json))

/-- Object fields, when `j` is an object. -/
def Json.getObj? : Json → Option (List (String × Json))
  | .obj fields => some fields
  | _ => none

/-- String payload, when `j` is a string. -/
def Json.getStr? : Json → Option String
  | .str s => some s
  | _ => none

/-- Boolean payload, when `j` is a boolean. -/
def Json.getBool? : Json → Option Bool
  | .bool b => some b
  | _ => none

/-- Serialization of a machine profile (`Config.dict()` fragment). -/
def MachineProfile.toJson (m : MachineProfile) : Json :=
  .obj [("profile_id", .str m.profile_id), ("machine_name", .str m.machine_name),
        ("os_type", .str m.os_type), ("architecture", .str m.architecture)]

/-- Serialization of a package record; the `datetime` is rendered through
`default=str`. -/
def PackageInfo.toJson (p : PackageInfo) : Json :=
  .obj [("name", .str p.name), ("package_manager", .str p.package_manager),
        ("installed_at", .str (String.mk (renderDateTime p.installed_at))),
        ("version", match p.version with | none => .null | some v => .str v)]

/-- Serialization of the git settings. -/
def GitConfig.toJson (g : GitConfig) : Json :=
  .obj [("auto_commit", .bool g.auto_commit), ("auto_push", .bool g.auto_push),
        ("commit_message_template", .str g.commit_message_template)]

/-- Serialization of the whole tracking document, `config.dict()` as dumped
by `save_config` (`src/install_sync/main.py` lines 300-309). -/
def Config.toJson (c : Config) : Json :=
  .obj [("machines", .obj (c.machines.map (fun kv => (kv.1, kv.2.toJson)))),
        ("packages", .obj (c.packages.map
            (fun kv => (kv.1, .arr (kv.2.map PackageInfo.toJson))))),
        ("git", c.git.toJson)]

/-- Pydantic validation `MachineProfile(**data)`: all four fields required
strings. -/
def MachineProfile.fromJson? (j : Json) : Option MachineProfile := do
  let fields ← j.getObj?
  let pid ← (List.lookup "profile_id" fields).bind Json.getStr?
  let mn ← (List.lookup "machine_name" fields).bind Json.getStr?
  let ot ← (List.lookup "os_type" fields).bind Json.getStr?
  let ar ← (List.lookup "architecture" fields).bind Json.getStr?
  pure ⟨pid, mn, ot, ar⟩

/-- Pydantic validation `PackageInfo(**data)`: `installed_at` is parsed
from its string rendering, `version` is optional with default `None`. -/
def PackageInfo.fromJson? (j : Json) : Option PackageInfo := do
  let fields ← j.getObj?
  let nm ← (List.lookup "name" fields).bind Json.getStr?
  let pm ← (List.lookup "package_manager" fields).bind Json.getStr?
  let ia ← ((List.lookup "installed_at" fields).bind Json.getStr?).bind
      (fun s => parseDateTime s.toList)
  let ver : Option String ← (match List.lookup "version" fields with
    | none => some none
    | some .null => some none
    | some (.str v) => some (some v)
    | some _ => none : Option (Option String))
  pure ⟨nm, pm, ia, ver⟩

/-- Pydantic validation `GitConfig(**data)`: every field has a default. -/
def GitConfig.fromJson? (j : Json) : Option GitConfig := do
  let fields ← j.getObj?
  let ac ← (match List.lookup "auto_commit" fields with
    | none => some true
    | some v => v.getBool? : Option Bool)
  let ap ← (match List.lookup "auto_push" fields with
    | none => some true
    | some v => v.getBool? : Option Bool)
  let tpl ← (match List.lookup "commit_message_template" fields with
    | none => some "Install \x7bpackage\x7d on \x7bmachine\x7d"
    | some v => v.getStr? : Option String)
  pure ⟨ac, ap, tpl⟩

/-- Order-preserving effectful map over `Option` (the shape in which both
`dict` comprehensions and pydantic container validation traverse their
input). -/
def mapMOpt {α β : Type} (f : α → Option β) : List α → Option (List β)
  | [] => some []
  | x :: xs => do
      let y ← f x
      let ys ← mapMOpt f xs
      pure (y :: ys)

/-- Validation of one entry of the `machines` mapping. -/
def machineEntry? (kv : String × Json) : Option (String × MachineProfile) := do
  let m ← MachineProfile.fromJson? kv.2
  pure (kv.1, m)

/-- Validation of one entry of the `packages` mapping: an ordered list of
package records. -/
def packagesEntry? (kv : String × Json) : Option (String × List PackageInfo) := do
  let elems ← (match kv.2 with
    | .arr xs => some xs
    | _ => none : Option (List Json))
  let ps ← mapMOpt PackageInfo.fromJson? elems
  pure (kv.1, ps)

/-- Pydantic validation `Config(**data)` (`load_config`, line 296):
`machines`, `packages` and `git` all carry defaults. -/
def Config.fromJson? (j : Json) : Option Config := do
  let fields ← j.getObj?
  let machines ← (match List.lookup "machines" fields with
    | none => some []
    | some mj => do
        let mo ← mj.getObj?
        mapMOpt machineEntry? mo : Option (List (String × MachineProfile)))
  let packages ← (match List.lookup "packages" fields with
    | none => some []
    | some pj => do
        let po ← pj.getObj?
        mapMOpt packagesEntry? po : Option (List (String × List PackageInfo)))
  let git ← (match List.lookup "git" fields with
    | none => some {}
    | some gj => GitConfig.fromJson? gj : Option GitConfig)
  pure ⟨machines, packages, git⟩

/-! ## Global preferences file (`src/install_sync/config_utils.py`) -/

/-- Global user configuration, `models.GlobalConfig` (lines 80-88). -/
structure GlobalConfig where
  git_auto_commit : Option Bool := none
  git_auto_push : Option Bool := none
  git_prompt : Bool := true
  prefer_ssh_remotes : Bool := true
  default_tracking_directory : Option String := none
  package_managers : List (String × String) := []
  deriving DecidableEq, Repr

/-- Pydantic validation `GlobalConfig(**data)`: every field has a default;
optional fields accept `null`. -/
def GlobalConfig.fromJson? (j : Json) : Option GlobalConfig := do
  let fields ← j.getObj?
  let gac ← (match List.lookup "git_auto_commit" fields with
    | none => some none
    | some .null => some none
    | some (.bool b) => some (some b)
    | some _ => none : Option (Option Bool))
  let gap ← (match List.lookup "git_auto_push" fields with
    | none => some none
    | some .null => some none
    | some (.bool b) => some (some b)
    | some _ => none : Option (Option Bool))
  let gp ← (match List.lookup "git_prompt" fields with
    | none => some true
    | some v => v.getBool? : Option Bool)
  let ssh ← (match List.lookup "prefer_ssh_remotes" fields with
    | none => some true
    | some v => v.getBool? : Option Bool)
  let dtd ← (match List.lookup "default_tracking_directory" fields with
    | none => some none
    | some .null => some none
    | some (.str s) => some (some s)
    | some _ => none : Option (Option String))
  let pms ← (match List.lookup "package_managers" fields with
    | none => some []
    | some pj => do
        let po ← pj.getObj?
        po.foldrM (fun kv acc => do
          let v ← kv.2.getStr?
          pure ((kv.1, v) :: acc)) [] : Option (List (String × String)))
  pure ⟨gac, gap, gp, ssh, dtd, pms⟩

/-- On-disk state of a persisted JSON document: absent, present but not
syntactically valid JSON (so `json.load` raises), or a parsed JSON value. -/
inductive FileState where
  | missing
  | invalidJson
  | content (j : Json)

/-- Shallow embedding of `config_utils.load_global_config` (lines 9-20):
a missing file, a `json.load` failure, or a pydantic validation failure all
yield the default `GlobalConfig()` — the `except Exception` handler turns
every corruption into the default. -/
def load_global_config : FileState → GlobalConfig
  | .missing => {}
  | .invalidJson => {}
  | .content j =>
      match GlobalConfig.fromJson? j with
      | some c => c
      | none => {}

/-- Shallow embedding of `main.load_config` (lines 288-297): a missing
`config.json` yields `Config()`, but there is no exception handler, so a
`json.load` failure (`JSONDecodeError`) or a pydantic validation failure
propagates to the caller. -/
def load_config : FileState → Except String Config
  | .missing => .ok {}
  | .invalidJson => .error "JSONDecodeError"
  | .content j =>
      match Config.fromJson? j with
      | some c => .ok c
      | none => .error "ValidationError"

/-- Shallow embedding of `main.save_config` (lines 300-309):
`json.dump(config.dict(), f, indent=2, default=str)` leaves the document
`Config.toJson` on disk. -/
def save_config (c : Config) : FileState := .content c.toJson

/-! ## Tracking-document accessors and mutators (`models.Config`) -/

/-- Python `dict` key-assignment `m[k] = v`: replace in place when the key
exists, append otherwise (insertion order is preserved). -/
def dictInsert {α : Type} (m : List (String × α)) (k : String) (v : α) :
    List (String × α) :=
  if m.any (fun kv => kv.1 == k) then
    m.map (fun kv => if kv.1 == k then (k, v) else kv)
  else m ++ [(k, v)]

/-- Key membership in an association list. -/
def keyMem {α : Type} (m : List (String × α)) (k : String) : Bool :=
  m.any (fun kv => kv.1 == k)

/-- `Config.get_current_machine_packages` (`models.py` lines 64-66):
`self.packages.get(profile_id, [])`. -/
def Config.get_current_machine_packages (c : Config) (profile_id : String) :
    List PackageInfo :=
  (List.lookup profile_id c.packages).getD []

/-- `Config.is_package_installed` (`models.py` lines 74-77). -/
def Config.is_package_installed (c : Config) (profile_id package_name : String) :
    Bool :=
  (c.get_current_machine_packages profile_id).any (fun pkg => pkg.name == package_name)

/-- `Config.add_package` (`models.py` lines 68-72): create the key with an
empty list when absent, then append the record. -/
def Config.add_package (c : Config) (profile_id : String) (pkg : PackageInfo) :
    Config :=
  let ps := if c.packages.any (fun kv => kv.1 == profile_id) then c.packages
            else c.packages ++ [(profile_id, [])]
  let ps2 := ps.map (fun kv => if kv.1 == profile_id then (kv.1, kv.2 ++ [pkg]) else kv)
  { c with packages := ps2 }

/-- The TrackingDocument invariant: every `profile_id` key of `packages`
has a corresponding entry in `machines`. -/
def Config.invariantB (c : Config) : Bool :=
  c.packages.all (fun kv => keyMem c.machines kv.1)

/-! ## Documents persisted by the mutating commands (`src/install_sync/main.py`)

Each function below returns the `Config` passed to `save_config`, or `none`
when the command returns or exits before saving. Outcomes of the external
package-manager collaborator (manager resolution, `install`, `is_installed`,
`uninstall`, `upgrade`, version comparison) are Boolean inputs. -/

/-- `install` (lines 312-395): update the machine profile, skip when
already installed (unless forced), then on a successful install record the
package and save. -/
def installSavedDoc (cfg : Config) (machine : MachineProfile) (pkg : PackageInfo)
    (force managerOk installOk : Bool) : Option Config :=
  let cfg1 := { cfg with machines := dictInsert cfg.machines machine.profile_id machine }
  if !force && cfg1.is_package_installed machine.profile_id pkg.name then none
  else if !managerOk then none
  else if installOk then some (cfg1.add_package machine.profile_id pkg)
  else none

/-- `track` (lines 398-501): like `install` but requires the package to be
already present on the system and never forces. -/
def trackSavedDoc (cfg : Config) (machine : MachineProfile) (pkg : PackageInfo)
    (managerOk installedOnSystem : Bool) : Option Config :=
  let cfg1 := { cfg with machines := dictInsert cfg.machines machine.profile_id machine }
  if cfg1.is_package_installed machine.profile_id pkg.name then none
  else if !managerOk then none
  else if !installedOnSystem then none
  else some (cfg1.add_package machine.profile_id pkg)

/-- Removal from tracking, `config.packages[pid] = [p for p in ... if
p.name != package]` (lines 571-573 and 584-586). -/
def removeFromTracking (c : Config) (profile_id package_name : String) : Config :=
  let ps2 := c.packages.map
    (fun kv => if kv.1 == profile_id
               then (kv.1, kv.2.filter (fun p => p.name != package_name))
               else kv)
  { c with packages := ps2 }

/-- `uninstall` (lines 503-611). -/
def uninstallSavedDoc (cfg : Config) (machine : MachineProfile)
    (package_name : String) (force managerOk installedViaMgr uninstallOk : Bool) :
    Option Config :=
  let cfg1 := { cfg with machines := dictInsert cfg.machines machine.profile_id machine }
  let tracked := cfg1.is_package_installed machine.profile_id package_name
  if !force && !tracked then none
  else if !managerOk then none
  else if !installedViaMgr then
    if tracked then some (removeFromTracking cfg1 machine.profile_id package_name)
    else none
  else if uninstallOk then
    if tracked then some (removeFromTracking cfg1 machine.profile_id package_name)
    else none
  else none

/-- Lines 702-708: update version and timestamp of the first tracked record
with the given name (the loop breaks after the first match). -/
def updateFirstMatch (ps : List PackageInfo) (package_name : String)
    (newVer : Option String) (now : DateTime) : List PackageInfo :=
  match ps with
  | [] => []
  | p :: rest =>
      if p.name == package_name then
        { p with version := newVer, installed_at := now } :: rest
      else p :: updateFirstMatch rest package_name newVer now

/-- `upgrade` of a single package (lines 614-739): the document is saved
only when the upgrade succeeded and the reported version changed. -/
def upgradeSavedDoc (cfg : Config) (machine : MachineProfile)
    (package_name : String) (newVer : Option String) (now : DateTime)
    (managerOk installedViaMgr upgradeOk versionChanged : Bool) : Option Config :=
  let cfg1 := { cfg with machines := dictInsert cfg.machines machine.profile_id machine }
  if !(cfg1.is_package_installed machine.profile_id package_name) then none
  else if !managerOk then none
  else if !installedViaMgr then none
  else if upgradeOk then
    if versionChanged then
      let ps2 := cfg1.packages.map
        (fun kv => if kv.1 == machine.profile_id
                   then (kv.1, updateFirstMatch kv.2 package_name newVer now)
                   else kv)
      some { cfg1 with packages := ps2 }
    else none
  else none

/-- `upgrade` of all packages (lines 741-829): in-place version updates of
the current machine records, saved only when at least one changed. -/
def upgradeAllSavedDoc (cfg : Config) (machine : MachineProfile)
    (updates : List (String × Option String × DateTime)) : Option Config :=
  let cfg1 := { cfg with machines := dictInsert cfg.machines machine.profile_id machine }
  if updates.isEmpty then none
  else
    let ps2 := cfg1.packages.map
      (fun kv => if kv.1 == machine.profile_id
                 then (kv.1, updates.foldl
                     (fun ps u => updateFirstMatch ps u.1 u.2.1 u.2.2) kv.2)
                 else kv)
    some { cfg1 with packages := ps2 }

/-! ## Sync before a read-only operation (`list`, `src/install_sync/main.py`
lines 832-850) -/

/-- Outcome of the pre-read sync. -/
inductive SyncBeforeResult where
  | pulled
  | warnedStale (err : String)
  | skippedPolicy
  deriving DecidableEq, Repr

/-- Modelled from the spec: `GitManager.sync_before_operation` is invoked
by the `list` command (`main.py` line 846) but is absent from
`src/install_sync/git_manager.py`. Spec section 4.1: it pulls remote
changes before a read-only operation if the pull-before-read policy is
enabled, and failures are non-fatal — the calling operation proceeds with
stale local data, logging a warning. -/
def sync_before_operation (policyEnabled : Bool)
    (pullResult : Except String Unit) : SyncBeforeResult :=
  if policyEnabled then
    match pullResult with
    | .ok _ => .pulled
    | .error e => .warnedStale e
  else .skippedPolicy

/-- Environment of one `list` invocation. -/
structure ListEnv where
  trackingDirExists : Bool
  policyEnabled : Bool
  pullResult : Except String Unit
  localConfig : Config
  currentProfileId : String

/-- The `list` command (lines 832-850 and the current-machine display): the
pre-read sync attempt is wrapped in `try/except` and the listing is always
produced from the locally loaded document. -/
def listCommand (env : ListEnv) : Option SyncBeforeResult × List PackageInfo :=
  let syncOutcome :=
    if env.trackingDirExists then
      some (sync_before_operation env.policyEnabled env.pullResult)
    else none
  (syncOutcome, env.localConfig.get_current_machine_packages env.currentProfileId)

/-! ## Machine identity (`MachineProfile.create_current`,
`src/install_sync/models.py` lines 19-35)

`profile_id = hashlib.md5(unique_str.encode()).hexdigest()[:8]`. The md5
implementation below follows RFC 1321 over byte lists (32-bit words as
naturals reduced mod `4294967296`); `.encode()` is UTF-8. -/

def rotl32 (x n : Nat) : Nat :=
  ((x <<< n) % 4294967296) ||| (x >>> (32 - n))

def md5K : List Nat :=
  [0xd76aa478, 0xe8c7b756, 0x242070db, 0xc1bdceee,
   0xf57c0faf, 0x4787c62a, 0xa8304613, 0xfd469501,
   0x698098d8, 0x8b44f7af, 0xffff5bb1, 0x895cd7be,
   0x6b901122, 0xfd987193, 0xa679438e, 0x49b40821,
   0xf61e2562, 0xc040b340, 0x265e5a51, 0xe9b6c7aa,
   0xd62f105d, 0x02441453, 0xd8a1e681, 0xe7d3fbc8,
   0x21e1cde6, 0xc33707d6, 0xf4d50d87, 0x455a14ed,
   0xa9e3e905, 0xfcefa3f8, 0x676f02d9, 0x8d2a4c8a,
   0xfffa3942, 0x8771f681, 0x6d9d6122, 0xfde5380c,
   0xa4beea44, 0x4bdecfa9, 0xf6bb4b60, 0xbebfbc70,
   0x289b7ec6, 0xeaa127fa, 0xd4ef3085, 0x04881d05,
   0xd9d4d039, 0xe6db99e5, 0x1fa27cf8, 0xc4ac5665,
   0xf4292244, 0x432aff97, 0xab9423a7, 0xfc93a039,
   0x655b59c3, 0x8f0ccc92, 0xffeff47d, 0x85845dd1,
   0x6fa87e4f, 0xfe2ce6e0, 0xa3014314, 0x4e0811a1,
   0xf7537e82, 0xbd3af235, 0x2ad7d2bb, 0xeb86d391]

def md5S : List Nat :=
  [7, 12, 17, 22, 7, 12, 17, 22, 7, 12, 17, 22, 7, 12, 17, 22,
   5, 9, 14, 20, 5, 9, 14, 20, 5, 9, 14, 20, 5, 9, 14, 20,
   4, 11, 16, 23, 4, 11, 16, 23, 4, 11, 16, 23, 4, 11, 16, 23,
   6, 10, 15, 21, 6, 10, 15, 21, 6, 10, 15, 21, 6, 10, 15, 21]

def leBytes (n count : Nat) : List Nat :=
  (List.range count).map (fun i => (n >>> (8 * i)) % 256)

def md5pad (msg : List Nat) : List Nat :=
  let zeros := (119 - msg.length % 64) % 64
  msg ++ 128 :: (List.replicate zeros 0 ++ leBytes (8 * msg.length) 8)

set_option linter.unusedVariables false in
/-- Split the padded message into 64-byte blocks. -/
def chunks64 (l : List Nat) : List (List Nat) :=
  if hne : l = [] then []
  else l.take 64 :: chunks64 (l.drop 64)
termination_by l.length
decreasing_by
  have hl : 0 < l.length := List.length_pos.mpr hne
  simp only [List.length_drop]
  omega

def wordsOfChunk (c : List Nat) : List Nat :=
  (List.range 16).map (fun i =>
    c.getD (4 * i) 0 + 256 * c.getD (4 * i + 1) 0 +
      65536 * c.getD (4 * i + 2) 0 + 16777216 * c.getD (4 * i + 3) 0)

def md5Mix (M : List Nat) (st : Nat × Nat × Nat × Nat) (i : Nat) :
    Nat × Nat × Nat × Nat :=
  let (a, b, c, d) := st
  let f :=
    if i < 16 then (b &&& c) ||| ((b ^^^ 4294967295) &&& d)
    else if i < 32 then (d &&& b) ||| ((d ^^^ 4294967295) &&& c)
    else if i < 48 then b ^^^ c ^^^ d
    else c ^^^ (b ||| (d ^^^ 4294967295))
  let g :=
    if i < 16 then i
    else if i < 32 then (5 * i + 1) % 16
    else if i < 48 then (3 * i + 5) % 16
    else (7 * i) % 16
  let tmp := (a + f + md5K.getD i 0 + M.getD g 0) % 4294967296
  let nb := (b + rotl32 tmp (md5S.getD i 0)) % 4294967296
  (d, nb, b, c)

def md5Process (st : Nat × Nat × Nat × Nat) (chunk : List Nat) :
    Nat × Nat × Nat × Nat :=
  let M := wordsOfChunk chunk
  let r := (List.range 64).foldl (md5Mix M) st
  ((st.1 + r.1) % 4294967296, (st.2.1 + r.2.1) % 4294967296,
   (st.2.2.1 + r.2.2.1) % 4294967296, (st.2.2.2 + r.2.2.2) % 4294967296)

def md5 (msg : List Nat) : Nat × Nat × Nat × Nat :=
  (chunks64 (md5pad msg)).foldl md5Process
    (1732584193, 4023233417, 2562383102, 271733878)

def md5bytes (msg : List Nat) : List Nat :=
  let st := md5 msg
  leBytes st.1 4 ++ leBytes st.2.1 4 ++ leBytes st.2.2.1 4 ++ leBytes st.2.2.2 4

def hexDigitChar (n : Nat) : Char :=
  if n < 10 then Char.ofNat (48 + n) else Char.ofNat (87 + n)

def byteHex (b : Nat) : List Char :=
  [hexDigitChar ((b / 16) % 16), hexDigitChar (b % 16)]

def md5hexChars (msg : List Nat) : List Char :=
  ((md5bytes msg).map byteHex).flatten

def utf8Char (c : Char) : List Nat :=
  let n := c.toNat
  if n < 128 then [n]
  else if n < 2048 then [192 + n / 64, 128 + n % 64]
  else if n < 65536 then
    [224 + n / 4096, 128 + (n / 64) % 64, 128 + n % 64]
  else
    [240 + n / 262144, 128 + (n / 4096) % 64, 128 + (n / 64) % 64, 128 + n % 64]

def strBytes (s : String) : List Nat :=
  (s.toList.map utf8Char).flatten

/-- `MachineProfile.create_current` (`src/install_sync/models.py`, lines
19-35), with the `platform` collaborator results as explicit inputs:
`node = platform.node()`, `system = platform.system()`,
`machineArch = platform.machine()`. -/
def MachineProfile.create_current (node system machineArch : String) :
    MachineProfile :=
  let os_type := strLower system
  let unique_str := node ++ "_" ++ os_type ++ "_" ++ machineArch
  let profile_id := String.mk ((md5hexChars (strBytes unique_str)).take 8)
  { profile_id := profile_id, machine_name := node, os_type := os_type,
    architecture := machineArch }

/-- Characters that may occur in an md5 `hexdigest()`: the decimal digits
(codepoints 48-57) and the lowercase letters `a`-`f` (codepoints 97-102). -/
def IsHexDigitChar (c : Char) : Prop :=
  (48 ≤ c.toNat ∧ c.toNat ≤ 57) ∨ (97 ≤ c.toNat ∧ c.toNat ≤ 102)

instance (c : Char) : Decidable (IsHexDigitChar c) := by
  unfold IsHexDigitChar; exact inferInstance

/-! ## Expected outcomes of the recovery branches of `push_changes` -/

/-- Outcome of the divergence-recovery branch (lines 170-205) as a function
of the environment: after the single pull and single retried push, either
the retry succeeds, or the retry still carries failure flags
(`divergedUnresolved`), or the pull / retry raised (`syncAndRetryFailed`). -/
def divergedBranchState (env : PushEnv) : PushState :=
  if env.pullOk then
    match env.retryPush with
    | .raises _ => .syncAndRetryFailed
    | .flags er rj => if er || rj then .divergedUnresolved else .pushedAfterRetry
    | .empty => .pushedAfterRetry
  else .syncAndRetryFailed

/-- Outcome of the verification branch (lines 238-274) as a function of the
environment and the original error `e`: matching tips are treated as
success, anything else surfaces `e` as a warning. -/
def verifyBranchState (env : PushEnv) (e : String) : PushState :=
  if env.fetchOk then
    match env.remoteTip with
    | some t => if env.localTip == t then .verifiedAfterAmbiguous else .warnedUnverified e
    | none => .warnedUnverified e
  else .warnedVerifyFailed e

/-- C1: when the initial push fails with a divergence/non-fast-forward
rejection, `push_changes` performs exactly one pull and at most one retried
push (exactly one when the pull succeeds), never runs the verify-by-fetch
recovery, never raises, and reports `divergedUnresolved` (or the
sync-failure outcome) when the retry also fails — no recovery path runs
more than once in the invocation. -/
theorem c1_divergence_pull_and_retry_once (config : GitConfig) (env : PushEnv)
    (e : String) (hpush : config.auto_push = true)
    (hfail : firstPushError env.firstPush = some e)
    (hdiv : isDivergenceError e = true) :
    push_changes config env =
      { state := divergedBranchState env,
        pushes := if env.pullOk then 2 else 1,
        pulls := 1,
        verifyFetches := 0,
        raised := none } := by
  obtain ⟨fp, pullOk, retry, fetchOk, lt, rt⟩ := env
  simp only [push_changes, divergedBranchState, hpush, hfail, hdiv, Bool.not_true,
    Bool.false_eq_true, if_false, if_true]
  cases pullOk <;> cases retry <;> (simp; try (split <;> rfl))

/-- C1 witness: a concrete diverged-and-retry-failed invocation. -/
theorem c1_divergence_pull_and_retry_once_witness :
    push_changes { auto_commit := true, auto_push := true, commit_message_template := "" }
      { firstPush := .raises "push rejected by remote", pullOk := true,
        retryPush := .flags false true, fetchOk := true,
        localTip := "aaa", remoteTip := some "bbb" } =
      { state := .divergedUnresolved, pushes := 2, pulls := 1,
        verifyFetches := 0, raised := none } := by
  exact c1_divergence_pull_and_retry_once _ _ "push rejected by remote" rfl rfl (by decide)

/-- C2: when the push fails with an error that is neither a divergence
rejection nor an authentication error, `push_changes` fetches the remote
once and compares tips: equal tips are treated as success
(`verifiedAfterAmbiguous`); differing tips surface the original failure as
a warning (`warnedUnverified e`), never as a silent success, and no pull or
retry happens. -/
theorem c2_ambiguous_failure_verify (config : GitConfig) (env : PushEnv)
    (e : String) (hpush : config.auto_push = true)
    (hfail : firstPushError env.firstPush = some e)
    (hdiv : isDivergenceError e = false)
    (hauth : isAuthError e = false) :
    push_changes config env =
      { state := verifyBranchState env e,
        pushes := 1,
        pulls := 0,
        verifyFetches := 1,
        raised := none } := by
  obtain ⟨fp, pullOk, retry, fetchOk, lt, rt⟩ := env
  simp only [push_changes, verifyBranchState, hpush, hfail, hdiv, hauth, Bool.not_true,
    Bool.false_eq_true, if_false, if_true]
  cases fetchOk <;> cases rt <;> (simp; try (split <;> rfl))

/-- C2 witness: an ambiguous failure whose verification finds equal tips. -/
theorem c2_ambiguous_failure_verify_witness :
    push_changes { auto_commit := true, auto_push := true, commit_message_template := "" }
      { firstPush := .raises "remote hung up unexpectedly", pullOk := true,
        retryPush := .empty, fetchOk := true,
        localTip := "aaa", remoteTip := some "aaa" } =
      { state := .verifiedAfterAmbiguous, pushes := 1, pulls := 0,
        verifyFetches := 1, raised := none } := by
  exact c2_ambiguous_failure_verify _ _ "remote hung up unexpectedly" rfl rfl
    (by decide) (by decide)

/-- C3 counterexample: an error text containing the auth keyword `denied`
but also the divergence keyword `rejected` takes the divergence branch:
`push_changes` performs a pull (one, not zero) and does not propagate the
error, contradicting the claim as stated. -/
theorem c3_counterexample :
    strContains (strLower "remote: push rejected - permission denied") "denied"
        = true ∧
    (push_changes { auto_commit := true, auto_push := true, commit_message_template := "" }
      { firstPush := .raises "remote: push rejected - permission denied", pullOk := true,
        retryPush := .flags false false, fetchOk := true,
        localTip := "aaa", remoteTip := some "aaa" }).pulls = 1 ∧
    (push_changes { auto_commit := true, auto_push := true, commit_message_template := "" }
      { firstPush := .raises "remote: push rejected - permission denied", pullOk := true,
        retryPush := .flags false false, fetchOk := true,
        localTip := "aaa", remoteTip := some "aaa" }).raised = none := by
  decide

/-- C3 amended: when the push failure text contains an
authentication/authorization keyword (`403`, `denied`,
`authentication failed`, `unauthorized`) and none of the divergence
keywords (`fetch first`, `non-fast-forward`, `rejected`), `push_changes`
performs zero pulls, zero retries, zero verification fetches, and
propagates the underlying error to the caller immediately. -/
theorem c3_auth_failure_no_retry (config : GitConfig) (env : PushEnv)
    (e : String) (hpush : config.auto_push = true)
    (hfail : firstPushError env.firstPush = some e)
    (hdiv : isDivergenceError e = false)
    (hauth : isAuthError e = true) :
    push_changes config env =
      { state := .authFailed e,
        pushes := 1,
        pulls := 0,
        verifyFetches := 0,
        raised := some e } := by
  obtain ⟨fp, pullOk, retry, fetchOk, lt, rt⟩ := env
  simp only [push_changes, hpush, hfail, hdiv, hauth, Bool.not_true,
    Bool.false_eq_true, if_false, if_true]

/-- C3 amended witness: a concrete `403` failure. -/
theorem c3_auth_failure_no_retry_witness :
    push_changes { auto_commit := true, auto_push := true, commit_message_template := "" }
      { firstPush := .raises "the requested url returned error: 403", pullOk := true,
        retryPush := .empty, fetchOk := true,
        localTip := "aaa", remoteTip := some "aaa" } =
      { state := .authFailed "the requested url returned error: 403", pushes := 1,
        pulls := 0, verifyFetches := 0,
        raised := some "the requested url returned error: 403" } := by
  exact c3_auth_failure_no_retry _ _ "the requested url returned error: 403" rfl rfl
    (by decide) (by decide)

/-- C8: with nothing modified, staged or untracked, `commit_changes`
reports the clean outcome and leaves the repository unchanged — no empty
commit — and running the `commit_and_push` sequence twice in a row with no
intervening mutation yields the clean outcome both times with an unchanged
commit history. -/
theorem c8_commit_clean_idempotent (config : GitConfig) (msg1 msg2 : String)
    (wt : WorkTree) (env1 env2 : PushEnv)
    (hc : config.auto_commit = true)
    (hm : wt.modified = false) (hu : wt.untracked = false) :
    (commit_and_push config msg1 wt env1).2.1 = .clean ∧
    (commit_and_push config msg1 wt env1).1 = wt ∧
    (commit_and_push config msg2 (commit_and_push config msg1 wt env1).1 env2).2.1
        = .clean ∧
    (commit_and_push config msg2 (commit_and_push config msg1 wt env1).1 env2).1.history
        = wt.history := by
  obtain ⟨m, u, hist⟩ := wt
  simp only [WorkTree.mk.injEq] at hm hu
  subst hm hu
  simp [commit_and_push, commit_changes, addAll, hc]

/-- C8 witness: a concrete clean repository. -/
theorem c8_commit_clean_idempotent_witness :
    (commit_and_push { auto_commit := true, auto_push := false, commit_message_template := "" }
        "m1" { modified := false, untracked := false, history := ["c0"] }
        { firstPush := .empty, pullOk := true, retryPush := .empty, fetchOk := true,
          localTip := "aaa", remoteTip := some "aaa" }).2.1 = .clean ∧
    (commit_and_push { auto_commit := true, auto_push := false, commit_message_template := "" }
        "m1" { modified := false, untracked := false, history := ["c0"] }
        { firstPush := .empty, pullOk := true, retryPush := .empty, fetchOk := true,
          localTip := "aaa", remoteTip := some "aaa" }).1
      = { modified := false, untracked := false, history := ["c0"] } := by
  have h := c8_commit_clean_idempotent
    { auto_commit := true, auto_push := false, commit_message_template := "" }
    "m1" "m2" { modified := false, untracked := false, history := ["c0"] }
    { firstPush := .empty, pullOk := true, retryPush := .empty, fetchOk := true,
      localTip := "aaa", remoteTip := some "aaa" }
    { firstPush := .empty, pullOk := true, retryPush := .empty, fetchOk := true,
      localTip := "aaa", remoteTip := some "aaa" }
    rfl rfl rfl
  exact ⟨h.1, h.2.1⟩

/-- C10: with the automation toggles disabled, `commit_changes` returns the
repository unchanged without staging or committing, and `push_changes`
performs no push, pull or fetch, raises nothing, and reports the skipped
outcome. -/
theorem c10_disabled_toggles_noop (config : GitConfig) (msg : String)
    (wt : WorkTree) (env : PushEnv)
    (hc : config.auto_commit = false) (hp : config.auto_push = false) :
    commit_changes config msg wt = (wt, .skipped) ∧
    push_changes config env =
      { state := .skipped, pushes := 0, pulls := 0, verifyFetches := 0,
        raised := none } := by
  constructor
  · simp [commit_changes, hc]
  · simp [push_changes, hp]

/-- C10 witness: concrete disabled configuration. -/
theorem c10_disabled_toggles_noop_witness :
    commit_changes { auto_commit := false, auto_push := false, commit_message_template := "" }
        "m" { modified := true, untracked := true, history := [] }
      = ({ modified := true, untracked := true, history := [] }, .skipped) ∧
    push_changes { auto_commit := false, auto_push := false, commit_message_template := "" }
        { firstPush := .raises "boom", pullOk := false, retryPush := .empty,
          fetchOk := false, localTip := "aaa", remoteTip := none } =
      { state := .skipped, pushes := 0, pulls := 0, verifyFetches := 0,
        raised := none } := by
  exact c10_disabled_toggles_noop _ "m" _ _ rfl rfl

/-! ## Round trip of the persisted document (C7) -/

theorem toList_mk (cs : List Char) : (String.mk cs).toList = cs := rfl

theorem parseDigit_digitChar (k : Nat) (hk : k < 10) :
    parseDigit (digitChar k) = some k := by
  interval_cases k <;> decide

theorem parse2_pad2 (n : Nat) (h : n < 100) (rest : List Char) :
    parse2 (pad2 n ++ rest) = some (n, rest) := by
  have h1 : n / 10 % 10 < 10 := Nat.mod_lt _ (by norm_num)
  have h2 : n % 10 < 10 := Nat.mod_lt _ (by norm_num)
  simp [pad2, parse2, parseDigit_digitChar _ h1, parseDigit_digitChar _ h2]
  omega

theorem parse2_pad2_nil (n : Nat) (h : n < 100) :
    parse2 (pad2 n) = some (n, []) := by
  simpa using parse2_pad2 n h []

theorem parse4_pad4 (n : Nat) (h : n < 10000) (rest : List Char) :
    parse4 (pad4 n ++ rest) = some (n, rest) := by
  have h1 : n / 1000 % 10 < 10 := Nat.mod_lt _ (by norm_num)
  have h2 : n / 100 % 10 < 10 := Nat.mod_lt _ (by norm_num)
  have h3 : n / 10 % 10 < 10 := Nat.mod_lt _ (by norm_num)
  have h4 : n % 10 < 10 := Nat.mod_lt _ (by norm_num)
  simp [pad4, parse4, parseDigit_digitChar _ h1, parseDigit_digitChar _ h2,
    parseDigit_digitChar _ h3, parseDigit_digitChar _ h4]
  omega

theorem parse6_pad6 (n : Nat) (h : n < 1000000) (rest : List Char) :
    parse6 (pad6 n ++ rest) = some (n, rest) := by
  have h1 : n / 100000 % 10 < 10 := Nat.mod_lt _ (by norm_num)
  have h2 : n / 10000 % 10 < 10 := Nat.mod_lt _ (by norm_num)
  have h3 : n / 1000 % 10 < 10 := Nat.mod_lt _ (by norm_num)
  have h4 : n / 100 % 10 < 10 := Nat.mod_lt _ (by norm_num)
  have h5 : n / 10 % 10 < 10 := Nat.mod_lt _ (by norm_num)
  have h6 : n % 10 < 10 := Nat.mod_lt _ (by norm_num)
  simp [pad6, parse6, parseDigit_digitChar _ h1, parseDigit_digitChar _ h2,
    parseDigit_digitChar _ h3, parseDigit_digitChar _ h4,
    parseDigit_digitChar _ h5, parseDigit_digitChar _ h6]
  omega

theorem parse6_pad6_nil (n : Nat) (h : n < 1000000) :
    parse6 (pad6 n) = some (n, []) := by
  simpa using parse6_pad6 n h []

theorem expectChar_cons (c : Char) (rest : List Char) :
    expectChar c (c :: rest) = some rest := by
  simp [expectChar]

/-- Parsing inverts rendering on every in-range `datetime`. -/
theorem parseDateTime_renderDateTime (d : DateTime) (hwf : d.WF) :
    parseDateTime (renderDateTime d) = some d := by
  obtain ⟨y, mo, da, hh, mi, ss, us⟩ := d
  obtain ⟨hy, hmo, hda, hhh, hmi, hss, hus⟩ := hwf
  by_cases h0 : us = 0
  · subst h0
    simp only [renderDateTime, parseDateTime, if_pos rfl, List.append_nil,
      parse4_pad4 _ hy, expectChar_cons, parse2_pad2 _ hmo, parse2_pad2 _ hda,
      parse2_pad2 _ hhh, parse2_pad2 _ hmi, parse2_pad2_nil _ hss]
    simp [parse2_pad2_nil _ hss]
  · simp only [renderDateTime, parseDateTime, if_neg h0,
      parse4_pad4 _ hy, expectChar_cons, parse2_pad2 _ hmo, parse2_pad2 _ hda,
      parse2_pad2 _ hhh, parse2_pad2 _ hmi, parse2_pad2 _ hss,
      parse6_pad6_nil _ hus, List.isEmpty_nil, if_pos rfl]
    simp

theorem machineProfile_fromJson_toJson (m : MachineProfile) :
    MachineProfile.fromJson? m.toJson = some m := by
  obtain ⟨a, b, c, d⟩ := m
  rfl

theorem gitConfig_fromJson_toJson (g : GitConfig) :
    GitConfig.fromJson? g.toJson = some g := by
  obtain ⟨a, b, c⟩ := g
  rfl

theorem packageInfo_fromJson_toJson (p : PackageInfo) (h : p.installed_at.WF) :
    PackageInfo.fromJson? p.toJson = some p := by
  obtain ⟨nm, pm, ia, ver⟩ := p
  have hdt := parseDateTime_renderDateTime ia h
  cases ver <;>
    simp [PackageInfo.toJson, PackageInfo.fromJson?, Json.getObj?, Json.getStr?,
      List.lookup, toList_mk, hdt]

theorem mapMOpt_machines (ms : List (String × MachineProfile)) :
    mapMOpt machineEntry? (ms.map (fun kv => (kv.1, kv.2.toJson))) = some ms := by
  induction ms with
  | nil => rfl
  | cons kv rest ih =>
      simp [mapMOpt, machineEntry?, machineProfile_fromJson_toJson, ih]

theorem mapMOpt_packageList (ps : List PackageInfo)
    (h : ∀ p ∈ ps, p.installed_at.WF) :
    mapMOpt PackageInfo.fromJson? (ps.map PackageInfo.toJson) = some ps := by
  induction ps with
  | nil => rfl
  | cons p rest ih =>
      have hp := packageInfo_fromJson_toJson p (h p (by simp))
      have hrest := ih (fun q hq => h q (by simp [hq]))
      simp [mapMOpt, hp, hrest]

theorem mapMOpt_packages (pkgs : List (String × List PackageInfo))
    (h : ∀ kv ∈ pkgs, ∀ p ∈ kv.2, p.installed_at.WF) :
    mapMOpt packagesEntry?
      (pkgs.map (fun kv => (kv.1, Json.arr (kv.2.map PackageInfo.toJson))))
      = some pkgs := by
  induction pkgs with
  | nil => rfl
  | cons kv rest ih =>
      have hkv := mapMOpt_packageList kv.2 (h kv (by simp))
      have hrest := ih (fun q hq => h q (by simp [hq]))
      simp [mapMOpt, packagesEntry?, hkv, hrest]

/-- C7: serializing a TrackingDocument through `save_config` and loading it
back through `load_config` reproduces an equal document — the same
machines, the same packages with their fields, in the same order within
each machine's package list. -/
theorem c7_document_roundtrip (c : Config)
    (h : ∀ kv ∈ c.packages, ∀ p ∈ kv.2, p.installed_at.WF) :
    load_config (save_config c) = .ok c := by
  obtain ⟨ms, pkgs, git⟩ := c
  have hm := mapMOpt_machines ms
  have hp := mapMOpt_packages pkgs h
  have hg := gitConfig_fromJson_toJson git
  simp [save_config, load_config, Config.toJson, Config.fromJson?, Json.getObj?,
    List.lookup, hm, hp, hg]

/-- C7 witness: a two-record document with version present and absent and a
microsecond-bearing timestamp. -/
theorem c7_document_roundtrip_witness :
    load_config (save_config
      { machines := [("2e4809e4",
          { profile_id := "2e4809e4", machine_name := "mymachine",
            os_type := "linux", architecture := "x86_64" })],
        packages := [("2e4809e4",
          [{ name := "git", package_manager := "brew",
             installed_at :=
               { year := 2024, month := 1, day := 2, hour := 3, minute := 4,
                 second := 5, microsecond := 123456 },
             version := some "2.44.0" },
           { name := "curl", package_manager := "brew",
             installed_at :=
               { year := 2024, month := 11, day := 22, hour := 13, minute := 14,
                 second := 15, microsecond := 0 },
             version := none }])],
        git := { auto_commit := true, auto_push := true,
                 commit_message_template := "Install \x7bpackage\x7d on \x7bmachine\x7d" } }) =
    .ok
      { machines := [("2e4809e4",
          { profile_id := "2e4809e4", machine_name := "mymachine",
            os_type := "linux", architecture := "x86_64" })],
        packages := [("2e4809e4",
          [{ name := "git", package_manager := "brew",
             installed_at :=
               { year := 2024, month := 1, day := 2, hour := 3, minute := 4,
                 second := 5, microsecond := 123456 },
             version := some "2.44.0" },
           { name := "curl", package_manager := "brew",
             installed_at :=
               { year := 2024, month := 11, day := 22, hour := 13, minute := 14,
                 second := 15, microsecond := 0 },
             version := none }])],
        git := { auto_commit := true, auto_push := true,
                 commit_message_template := "Install \x7bpackage\x7d on \x7bmachine\x7d" } } := by
  exact c7_document_roundtrip _ (by decide)

/-! ## Configuration loading fallback (C4) -/

/-- C4 counterexample: on a malformed (unparseable) `config.json`,
`load_config` propagates the `json.load` exception instead of falling back
to the default document — while `load_global_config` does fall back. The
claim that BOTH loaders yield a default on malformed content is false. -/
theorem c4_counterexample :
    load_config FileState.invalidJson = Except.error "JSONDecodeError" ∧
    (∃ msg, load_config FileState.invalidJson = Except.error msg) ∧
    load_global_config FileState.invalidJson = ({} : GlobalConfig) := by
  exact ⟨rfl, ⟨"JSONDecodeError", rfl⟩, rfl⟩

/-- C4 amended: the global preferences file falls back to the default
configuration whenever its contents are missing, unparseable, or fail
validation; the tracked `config.json` falls back to the default only when
the file is missing, and loading it raises on malformed contents. -/
theorem c4_load_fallback (jg jc : Json)
    (hg : GlobalConfig.fromJson? jg = none)
    (hc : Config.fromJson? jc = none) :
    load_global_config FileState.missing = ({} : GlobalConfig) ∧
    load_global_config FileState.invalidJson = ({} : GlobalConfig) ∧
    load_global_config (FileState.content jg) = ({} : GlobalConfig) ∧
    load_config FileState.missing = Except.ok ({} : Config) ∧
    load_config FileState.invalidJson = Except.error "JSONDecodeError" ∧
    load_config (FileState.content jc) = Except.error "ValidationError" := by
  refine ⟨rfl, rfl, ?_, rfl, rfl, ?_⟩
  · simp [load_global_config, hg]
  · simp [load_config, hc]

/-- C4 amended witness: a document that is valid JSON but not a valid
tracking document (a bare string). -/
theorem c4_load_fallback_witness :
    load_global_config FileState.missing = ({} : GlobalConfig) ∧
    load_global_config FileState.invalidJson = ({} : GlobalConfig) ∧
    load_global_config (FileState.content (Json.str "oops")) = ({} : GlobalConfig) ∧
    load_config FileState.missing = Except.ok ({} : Config) ∧
    load_config FileState.invalidJson = Except.error "JSONDecodeError" ∧
    load_config (FileState.content (Json.str "oops")) = Except.error "ValidationError" := by
  exact c4_load_fallback (Json.str "oops") (Json.str "oops") rfl rfl

/-! ## Pre-read sync before `list` (C5) -/

/-- C5: with the pull-before-read policy enabled, the `list` command
attempts the pre-read pull, and a pull failure is non-fatal: the sync
outcome is a logged warning and the listing is still produced from the
local document — identical to the listing produced when the pull
succeeds. -/
theorem c5_sync_before_list_nonfatal (env : ListEnv) (e : String)
    (hdir : env.trackingDirExists = true)
    (hpol : env.policyEnabled = true)
    (hpull : env.pullResult = .error e) :
    (listCommand env).1 = some (SyncBeforeResult.warnedStale e) ∧
    (listCommand env).2
        = env.localConfig.get_current_machine_packages env.currentProfileId ∧
    (listCommand env).2 = (listCommand { env with pullResult := .ok () }).2 := by
  refine ⟨?_, rfl, rfl⟩
  simp [listCommand, sync_before_operation, hdir, hpol, hpull]

/-- C5 witness: a concrete failed pull before listing. -/
theorem c5_sync_before_list_nonfatal_witness :
    (listCommand
      { trackingDirExists := true, policyEnabled := true,
        pullResult := .error "network unreachable",
        localConfig := { machines := [], packages := [], git := {} },
        currentProfileId := "2e4809e4" }).1
      = some (SyncBeforeResult.warnedStale "network unreachable") ∧
    (listCommand
      { trackingDirExists := true, policyEnabled := true,
        pullResult := .error "network unreachable",
        localConfig := { machines := [], packages := [], git := {} },
        currentProfileId := "2e4809e4" }).2
      = ({ machines := [], packages := [], git := {} } :
          Config).get_current_machine_packages "2e4809e4" := by
  have h := c5_sync_before_list_nonfatal
    { trackingDirExists := true, policyEnabled := true,
      pullResult := .error "network unreachable",
      localConfig := { machines := [], packages := [], git := {} },
      currentProfileId := "2e4809e4" } "network unreachable" rfl rfl rfl
  exact ⟨h.1, h.2.1⟩

/-! ## Machine identity (C6) -/

theorem leBytes_length (n count : Nat) : (leBytes n count).length = count := by
  simp [leBytes]

theorem md5bytes_length (msg : List Nat) : (md5bytes msg).length = 16 := by
  simp [md5bytes, leBytes_length]

theorem flatten_map_byteHex_length (l : List Nat) :
    ((l.map byteHex).flatten).length = 2 * l.length := by
  induction l with
  | nil => rfl
  | cons b rest ih =>
      simp [byteHex, ih]
      omega

theorem md5hexChars_length (msg : List Nat) : (md5hexChars msg).length = 32 := by
  rw [md5hexChars, flatten_map_byteHex_length, md5bytes_length]

theorem hexDigitChar_mem (k : Nat) (hk : k < 16) : IsHexDigitChar (hexDigitChar k) := by
  interval_cases k <;> decide

theorem mem_md5hexChars_hex (msg : List Nat) (c : Char)
    (hc : c ∈ md5hexChars msg) : IsHexDigitChar c := by
  rw [md5hexChars] at hc
  obtain ⟨cs, hcs, hc2⟩ := List.mem_flatten.mp hc
  obtain ⟨b, _hb, rfl⟩ := List.mem_map.mp hcs
  simp only [byteHex, List.mem_cons, List.mem_singleton, List.not_mem_nil,
    or_false] at hc2
  rcases hc2 with rfl | rfl
  · exact hexDigitChar_mem _ (Nat.mod_lt _ (by norm_num))
  · exact hexDigitChar_mem _ (Nat.mod_lt _ (by norm_num))

/-- C6: the derived profile id is exactly the md5 content hash of
`machine_name + "_" + os_type + "_" + architecture` (UTF-8 encoded)
truncated to its first 8 hexadecimal characters — a pure function of the
three platform inputs, 8 characters long, every character a lowercase hex
digit. Determinism is the first equation: the id is computed from the
three inputs alone. -/
theorem c6_profile_id_deterministic_hash (node system machineArch : String) :
    (MachineProfile.create_current node system machineArch).profile_id
      = String.mk ((md5hexChars (strBytes
          (node ++ "_" ++ strLower system ++ "_" ++ machineArch))).take 8) ∧
    (MachineProfile.create_current node system machineArch).profile_id.length = 8 ∧
    ∀ c ∈ (MachineProfile.create_current node system machineArch).profile_id.toList,
      IsHexDigitChar c := by
  refine ⟨rfl, ?_, ?_⟩
  · show ((md5hexChars (strBytes
        (node ++ "_" ++ strLower system ++ "_" ++ machineArch))).take 8).length = 8
    rw [List.length_take, md5hexChars_length]
    decide
  · intro c hcmem
    have hc : c ∈ md5hexChars (strBytes
        (node ++ "_" ++ strLower system ++ "_" ++ machineArch)) :=
      List.mem_of_mem_take hcmem
    exact mem_md5hexChars_hex _ _ hc

/-! ## Invariant preservation by the mutating commands (C9) -/

theorem keyMem_mapIf {α : Type} (m : List (String × α)) (pid a : String)
    (g : String × α → α) :
    keyMem (m.map (fun kv => if kv.1 == pid then (kv.1, g kv) else kv)) a
      = keyMem m a := by
  unfold keyMem
  induction m with
  | nil => rfl
  | cons kv rest ih =>
      have hhead : (if kv.1 == pid then (kv.1, g kv) else kv).1 = kv.1 := by
        by_cases h : kv.1 == pid
        · rw [if_pos h]
        · rw [if_neg h]
      simp only [List.map_cons, List.any_cons, hhead, ih]

theorem keyMem_dictInsert_self {α : Type} (m : List (String × α)) (k : String)
    (v : α) : keyMem (dictInsert m k v) k = true := by
  unfold dictInsert keyMem
  by_cases hk : m.any (fun kv => kv.1 == k)
  · rw [if_pos hk]
    simp only [List.any_eq_true] at hk
    obtain ⟨kv, hmem, hb⟩ := hk
    simp only [List.any_map, List.any_eq_true, Function.comp]
    exact ⟨kv, hmem, by simp [hb]⟩
  · rw [if_neg hk]
    simp

theorem keyMem_dictInsert_of {α : Type} (m : List (String × α)) (k a : String)
    (v : α) (h : keyMem m a = true) : keyMem (dictInsert m k v) a = true := by
  unfold keyMem at h
  unfold dictInsert keyMem
  by_cases hk : m.any (fun kv => kv.1 == k)
  · rw [if_pos hk]
    simp only [List.any_eq_true] at h
    obtain ⟨kv, hmem, hb⟩ := h
    simp only [List.any_map, List.any_eq_true, Function.comp]
    refine ⟨kv, hmem, ?_⟩
    by_cases h1 : kv.1 == k
    · have e1 := eq_of_beq h1
      have e2 := eq_of_beq hb
      simp [h1, ← e1, e2]
    · simp [h1, hb]
  · rw [if_neg hk]
    simp only [List.any_append]
    simp [h]

theorem keyMem_add_package (c : Config) (pid : String) (pkg : PackageInfo)
    (a : String) (h : keyMem (c.add_package pid pkg).packages a = true) :
    a = pid ∨ keyMem c.packages a = true := by
  simp only [Config.add_package] at h
  rw [keyMem_mapIf] at h
  by_cases hk : c.packages.any (fun kv => kv.1 == pid)
  · rw [if_pos hk] at h
    exact Or.inr h
  · rw [if_neg hk] at h
    unfold keyMem at h
    simp only [List.any_append, Bool.or_eq_true] at h
    rcases h with h | h
    · exact Or.inr h
    · left
      simp only [List.any_cons, List.any_nil, Bool.or_false] at h
      exact (eq_of_beq h).symm

theorem invariantB_iff (c : Config) :
    c.invariantB = true ↔
      ∀ a, keyMem c.packages a = true → keyMem c.machines a = true := by
  simp only [Config.invariantB, keyMem, List.all_eq_true, List.any_eq_true,
    beq_iff_eq]
  constructor
  · rintro h a ⟨kv, hmem, rfl⟩
    exact h kv hmem
  · intro h kv hmem
    exact h kv.1 ⟨kv, hmem, rfl⟩

theorem invariantB_withMachines (cfg : Config) (machine : MachineProfile)
    (hinv : cfg.invariantB = true) :
    Config.invariantB
      { cfg with machines := dictInsert cfg.machines machine.profile_id machine }
      = true := by
  rw [invariantB_iff] at hinv ⊢
  intro a ha
  exact keyMem_dictInsert_of _ _ _ _ (hinv a ha)

theorem invariantB_addPackage (cfg : Config) (machine : MachineProfile)
    (pkg : PackageInfo) (hinv : cfg.invariantB = true) :
    Config.invariantB
      (Config.add_package
        { cfg with machines := dictInsert cfg.machines machine.profile_id machine }
        machine.profile_id pkg) = true := by
  rw [invariantB_iff]
  intro a ha
  have hm : (Config.add_package
      { cfg with machines := dictInsert cfg.machines machine.profile_id machine }
      machine.profile_id pkg).machines
        = dictInsert cfg.machines machine.profile_id machine := rfl
  rw [hm]
  rcases keyMem_add_package _ _ _ _ ha with rfl | h
  · exact keyMem_dictInsert_self _ _ _
  · exact keyMem_dictInsert_of _ _ _ _ ((invariantB_iff cfg).mp hinv a h)

theorem invariantB_setPackagesMapIf (c : Config) (pid : String)
    (g : String × List PackageInfo → List PackageInfo)
    (hinv : c.invariantB = true) :
    Config.invariantB
      { c with packages :=
          c.packages.map (fun kv => if kv.1 == pid then (kv.1, g kv) else kv) }
      = true := by
  obtain ⟨ms, pkgs, git⟩ := c
  rw [invariantB_iff] at hinv ⊢
  intro a ha
  simp only [keyMem_mapIf] at ha
  exact hinv a ha

/-- C9: if the TrackingDocument satisfies the packages-keys-have-machines
invariant, then every document persisted by `install`, `track`,
`uninstall` or `upgrade` (single-package and upgrade-all) satisfies it too:
each flow inserts the current machine profile before any package mutation,
so the temporary in-memory violation is repaired before `save_config`. -/
theorem c9_invariant_preserved
    (cfg : Config) (machine : MachineProfile) (pkg : PackageInfo)
    (package_name : String) (newVer : Option String) (now : DateTime)
    (updates : List (String × Option String × DateTime))
    (force managerOk installOk installedOnSystem installedViaMgr
      uninstallOk upgradeOk versionChanged : Bool)
    (hinv : cfg.invariantB = true) :
    (installSavedDoc cfg machine pkg force managerOk installOk).all
        Config.invariantB = true ∧
    (trackSavedDoc cfg machine pkg managerOk installedOnSystem).all
        Config.invariantB = true ∧
    (uninstallSavedDoc cfg machine package_name force managerOk installedViaMgr
        uninstallOk).all Config.invariantB = true ∧
    (upgradeSavedDoc cfg machine package_name newVer now managerOk
        installedViaMgr upgradeOk versionChanged).all Config.invariantB = true ∧
    (upgradeAllSavedDoc cfg machine updates).all Config.invariantB = true := by
  have h1 := invariantB_withMachines cfg machine hinv
  have h2 := invariantB_addPackage cfg machine pkg hinv
  have h3 := invariantB_setPackagesMapIf
    { cfg with machines := dictInsert cfg.machines machine.profile_id machine }
    machine.profile_id (fun kv => kv.2.filter (fun p => p.name != package_name)) h1
  have h4 := invariantB_setPackagesMapIf
    { cfg with machines := dictInsert cfg.machines machine.profile_id machine }
    machine.profile_id (fun kv => updateFirstMatch kv.2 package_name newVer now) h1
  have h5 := invariantB_setPackagesMapIf
    { cfg with machines := dictInsert cfg.machines machine.profile_id machine }
    machine.profile_id
    (fun kv => updates.foldl (fun ps u => updateFirstMatch ps u.1 u.2.1 u.2.2) kv.2) h1
  refine ⟨?_, ?_, ?_, ?_, ?_⟩
  · simp only [installSavedDoc]
    split
    · rfl
    · split
      · rfl
      · split
        · simpa [Option.all] using h2
        · rfl
  · simp only [trackSavedDoc]
    split
    · rfl
    · split
      · rfl
      · split
        · rfl
        · simpa [Option.all] using h2
  · simp only [uninstallSavedDoc, removeFromTracking]
    split
    · rfl
    · split
      · rfl
      · split
        · split
          · simpa [Option.all] using h3
          · rfl
        · split
          · split
            · simpa [Option.all] using h3
            · rfl
          · rfl
  · simp only [upgradeSavedDoc]
    split
    · rfl
    · split
      · rfl
      · split
        · rfl
        · split
          · split
            · simpa [Option.all] using h4
            · rfl
          · rfl
  · simp only [upgradeAllSavedDoc]
    split
    · rfl
    · simpa [Option.all] using h5

/-- C9 witness: a concrete document and flows (the machine is new, the
package list key is pre-existing). -/
theorem c9_invariant_preserved_witness :
    (installSavedDoc
        { machines := [("aaaa1111",
            { profile_id := "aaaa1111", machine_name := "m1",
              os_type := "linux", architecture := "arm64" })],
          packages := [("aaaa1111",
            [{ name := "git", package_manager := "brew",
               installed_at := DateTime.mk 2024 1 1 0 0 0 0,
               version := none }])],
          git := {} }
        { profile_id := "bbbb2222", machine_name := "m2",
          os_type := "darwin", architecture := "x86_64" }
        { name := "curl", package_manager := "brew",
          installed_at := DateTime.mk 2024 2 2 0 0 0 0,
          version := some "8.0" }
        false true true).all Config.invariantB = true ∧
    (upgradeAllSavedDoc
        { machines := [("aaaa1111",
            { profile_id := "aaaa1111", machine_name := "m1",
              os_type := "linux", architecture := "arm64" })],
          packages := [("aaaa1111",
            [{ name := "git", package_manager := "brew",
               installed_at := DateTime.mk 2024 1 1 0 0 0 0,
               version := none }])],
          git := {} }
        { profile_id := "bbbb2222", machine_name := "m2",
          os_type := "darwin", architecture := "x86_64" }
        [("git", some "2.45", DateTime.mk 2024 3 3 0 0 0 0)]).all
      Config.invariantB = true := by
  have h := c9_invariant_preserved
    { machines := [("aaaa1111",
        { profile_id := "aaaa1111", machine_name := "m1",
          os_type := "linux", architecture := "arm64" })],
      packages := [("aaaa1111",
        [{ name := "git", package_manager := "brew",
           installed_at := DateTime.mk 2024 1 1 0 0 0 0,
           version := none }])],
      git := {} }
    { profile_id := "bbbb2222", machine_name := "m2",
      os_type := "darwin", architecture := "x86_64" }
    { name := "curl", package_manager := "brew",
      installed_at := DateTime.mk 2024 2 2 0 0 0 0,
      version := some "8.0" }
    "git" (some "2.45") (DateTime.mk 2024 3 3 0 0 0 0)
    [("git", some "2.45", DateTime.mk 2024 3 3 0 0 0 0)]
    false true true true true true true true
    (by decide)
  exact ⟨h.1, h.2.2.2.2⟩

end InstallSync
